import Mathlib

/-
Verification development for the USCS ppzkSNARK basic policy
(src/include/nil/crypto3/zk/snark/proof_systems/detail/ppzksnark/uscs_ppzksnark/basic_policy.hpp).

The C++ core is a template over a pairing-friendly curve type; the algebraic
substrate (fields, groups, pairing, multi-exponentiation) is an external
collaborator.  We mirror this with a bundled structure of abstract carrier
types and operations, and translate the generator, prover and the four
verifier variants from the source.  Repository headers that are referenced
but not present (uscs.hpp, accumulation_vector.hpp, uscs_to_ssp.hpp, ssp.hpp)
are modelled from the specification, as marked in their doc comments.
-/

/-- The algebraic interface consumed by the core.  It mirrors the C++
template parameter CurveType together with the external algebra operations
the source uses: scalar field values with ring operations and equality, the
two source groups with addition, scalar multiplication and well-formedness
checks, the target group (the source conflates the Miller-loop codomain
Fqk with gt_type, so a single carrier GT is used) with multiplication,
unitary inversion and equality, and the two-stage pairing with
precomputation.  No algebraic laws are bundled: the C++ template imposes
none; theorems that need a law take it as an explicit hypothesis. -/
structure CurveType where
  F : Type
  G1 : Type
  G2 : Type
  GT : Type
  G1Precomp : Type
  G2Precomp : Type
  fzero : F
  fone : F
  fadd : F → F → F
  fmul : F → F → F
  feq : F → F → Bool
  g1zero : G1
  g1one : G1
  g1add : G1 → G1 → G1
  g1smul : F → G1 → G1
  g1wf : G1 → Bool
  g2zero : G2
  g2one : G2
  g2add : G2 → G2 → G2
  g2smul : F → G2 → G2
  g2wf : G2 → Bool
  gtone : GT
  gtmul : GT → GT → GT
  gtinv : GT → GT
  gtEq : GT → GT → Bool
  precompute_g1 : G1 → G1Precomp
  precompute_g2 : G2 → G2Precomp
  miller_loop : G1Precomp → G2Precomp → GT
  final_exponentiation : GT → GT

/-- Multi-scalar multiplication over an arbitrary module-like carrier:
the sum of pointwise scalar multiplications of a scalar list against a
point list (truncating at the shorter).  This is the documented meaning of
the external multiexp interface (spec glossary: MSM is the sum of s_i P_i;
spec notes correctness is independent of the chunk count, so the chunked
evaluation of the source is represented by the plain sum). -/
def msm {A B : Type} (smul : A → B → B) (add : B → B → B) (zero : B)
    (scalars : List A) (pts : List B) : B :=
  (List.zipWith smul scalars pts).foldr add zero

/-- The external batch_exp of the algebra interface: a window table is a
table of precomputed multiples of one base, and batch_exp maps each scalar
of the input vector to that scalar times the base. -/
def batch_exp {A B : Type} (smul : A → B → B) (base : B) (v : List A) : List B :=
  v.map fun s => smul s base

/-- The external batch_exp_with_coeff of the algebra interface: as
batch_exp, with a fixed coefficient multiplied onto every scalar first. -/
def batch_exp_with_coeff {A B : Type} (smul : A → B → B) (mul : A → A → A)
    (base : B) (coeff : A) (v : List A) : List B :=
  v.map fun s => smul (mul coeff s) base

/-- Modelled from the spec: uscs.hpp is not under src/.  One USCS
constraint is a sparse linear form over the extended variable vector
(1, x, w); a term pairs a variable index (0 is the constant 1) with its
coefficient. -/
structure uscs_constraint (F : Type) where
  terms : List (Nat × F)

/-- Modelled from the spec: uscs.hpp is not under src/.  A USCS constraint
system records the number of public-input variables, the number of
auxiliary variables, and the ordered constraint list. -/
structure uscs_constraint_system (F : Type) where
  num_inputs : Nat
  num_auxiliary : Nat
  constraints : List (uscs_constraint F)

/-- Modelled from the spec: total variable count, num_inputs plus
num_auxiliary. -/
def uscs_constraint_system.num_variables {F : Type}
    (cs : uscs_constraint_system F) : Nat :=
  cs.num_inputs + cs.num_auxiliary

/-- Modelled from the spec: value of variable i under primary input x and
auxiliary input y; index 0 is the implicit constant 1. -/
def uscs_variable_value (C : CurveType) (x y : List C.F) : Nat → C.F
  | 0 => C.fone
  | Nat.succ i => (x ++ y).getD i C.fzero

/-- Modelled from the spec: evaluation of one constraint's linear form at
the extended assignment (1, x, y). -/
def uscs_constraint_eval (C : CurveType) (x y : List C.F)
    (c : uscs_constraint C.F) : C.F :=
  (c.terms.map fun t => C.fmul t.2 (uscs_variable_value C x y t.1)).foldr C.fadd C.fzero

/-- Modelled from the spec: satisfaction of a USCS constraint system means
the squared evaluation of every constraint's linear form equals 1. -/
def is_satisfied (C : CurveType) (cs : uscs_constraint_system C.F)
    (x y : List C.F) : Bool :=
  cs.constraints.all fun c =>
    C.feq (C.fmul (uscs_constraint_eval C x y c) (uscs_constraint_eval C x y c)) C.fone

/-- Modelled from the spec: accumulation_vector.hpp is not under src/.
A pair of a base G1 element (the constant-term contribution) and a
sequence of G1 elements indexed by public-input position. -/
structure accumulation_vector (C : CurveType) where
  first : C.G1
  rest : List C.G1

/-- Modelled from the spec: how many positions the rest sequence
represents. -/
def accumulation_vector.domain_size (C : CurveType)
    (av : accumulation_vector C) : Nat :=
  av.rest.length

/-- Modelled from the spec: accumulate_chunk folds the weighted sum of the
scalar chunk (aligned at the given offset) into first; positions of the
domain not covered by the chunk are multiplied by implicit zero scalars
(this is the weak-IC zero padding), so the frontier covers the whole
domain and the result carries an empty rest. -/
def accumulation_vector.accumulate_chunk (C : CurveType)
    (av : accumulation_vector C) (scalars : List C.F) (offset : Nat) :
    accumulation_vector C :=
  { first := C.g1add av.first
      (msm C.g1smul C.g1add C.g1zero scalars (av.rest.drop offset))
    rest := [] }

/-- Modelled from the spec: the accumulation is full when no represented
position remains. -/
def accumulation_vector.is_fully_accumulated (C : CurveType)
    (av : accumulation_vector C) : Bool :=
  av.rest.isEmpty

/-- Modelled from the spec: ssp.hpp is not under src/.  The instance-side
SSP evaluation at the trapdoor point: shape parameters, the evaluations
Vt and Ht, and the vanishing polynomial value Zt. -/
structure ssp_instance_evaluation (C : CurveType) where
  num_variables : Nat
  num_inputs : Nat
  degree : Nat
  Vt : List C.F
  Ht : List C.F
  Zt : C.F

/-- Modelled from the spec: the SSP degree is the size of the smallest
power-of-two multiplicative subgroup of size at least num_constraints + 1. -/
def ssp_degree {F : Type} (cs : uscs_constraint_system F) : Nat :=
  2 ^ Nat.clog 2 (cs.constraints.length + 1)

/-- Iterated field multiplication, used for the monomial evaluations
Ht k = t to the k-th power. -/
def fpow (C : CurveType) (t : C.F) : Nat → C.F
  | 0 => C.fone
  | Nat.succ n => C.fmul t (fpow C t n)

/-- Modelled from the spec: uscs_to_ssp.hpp is not under src/.  The
instance map returns the shape parameters of cs, the vector Vt of the
polynomial evaluations V_i(t) for i in [0, num_variables] (one slot per
variable plus the constant slot; the source generator asserts that
appending Zt to it yields exactly num_variables + 2 entries), the vector
Ht of the monomials t^k for k in [0, degree], and Zt.  The Lagrange
interpolation producing the individual values V_i(t) and the vanishing
value Zt belongs to the missing header, so those values are supplied by
the evaluation arguments Veval and Zt; every claim below concerns only
the shape and wiring of the result, never the interpolated values. -/
def instance_map_with_evaluation (C : CurveType)
    (cs : uscs_constraint_system C.F) (t : C.F) (Veval : Nat → C.F)
    (Zt : C.F) : ssp_instance_evaluation C :=
  { num_variables := cs.num_variables
    num_inputs := cs.num_inputs
    degree := ssp_degree cs
    Vt := (List.range (cs.num_variables + 1)).map Veval
    Ht := (List.range (ssp_degree cs + 1)).map (fpow C t)
    Zt := Zt }

/-- Modelled from the spec: ssp.hpp is not under src/.  An SSP witness:
the variable-assignment coefficients for the Vs, the coefficients of the
quotient polynomial H, the blinding scalar d, and the shape parameters. -/
structure ssp_witness (C : CurveType) where
  coefficients_for_Vs : List C.F
  coefficients_for_H : List C.F
  d : C.F
  num_variables : Nat
  num_inputs : Nat
  degree : Nat

/-- Modelled from the spec: uscs_to_ssp.hpp is not under src/.  The
witness map packages the variable assignment x followed by y as the
coefficients for the Vs (the source prover pairs coefficient index j with
V_{j+1}; the constant slot is contributed separately through
V_g2_query[0]), the coefficients of the quotient polynomial H, the
blinding scalar d, and the shape parameters.  Computing the H
coefficients requires the polynomial division of the missing header, so
they are supplied by the hcoeffs argument; every claim below is
insensitive to their values. -/
def witness_map (C : CurveType) (cs : uscs_constraint_system C.F)
    (x y : List C.F) (d : C.F) (hcoeffs : List C.F) : ssp_witness C :=
  { coefficients_for_Vs := x ++ y
    coefficients_for_H := hcoeffs
    d := d
    num_variables := cs.num_variables
    num_inputs := cs.num_inputs
    degree := ssp_degree cs }

/-- A proving key for the USCS ppzkSNARK (source lines 108-156). -/
structure proving_key (C : CurveType) where
  V_g1_query : List C.G1
  alpha_V_g1_query : List C.G1
  H_g1_query : List C.G1
  V_g2_query : List C.G2
  cs : uscs_constraint_system C.F

/-- A verification key for the USCS ppzkSNARK (source lines 163-215). -/
structure verification_key (C : CurveType) where
  tilde_g2 : C.G2
  alpha_tilde_g2 : C.G2
  Z_g2 : C.G2
  encoded_IC_query : accumulation_vector C

/-- A processed verification key for the USCS ppzkSNARK (source lines
226-248).  The member pairing_of_g1_and_g2 is declared as gt_type and
assigned a Miller-loop value in the source; both are the carrier GT here. -/
structure processed_verification_key (C : CurveType) where
  pp_G1_one_precomp : C.G1Precomp
  pp_G2_one_precomp : C.G2Precomp
  vk_tilde_g2_precomp : C.G2Precomp
  vk_alpha_tilde_g2_precomp : C.G2Precomp
  vk_Z_g2_precomp : C.G2Precomp
  pairing_of_g1_and_g2 : C.GT
  encoded_IC_query : accumulation_vector C

/-- A key pair for the USCS ppzkSNARK (source lines 255-264). -/
structure keypair (C : CurveType) where
  pk : proving_key C
  vk : verification_key C

/-- A proof for the USCS ppzkSNARK (source lines 275-317). -/
structure proof (C : CurveType) where
  V_g1 : C.G1
  alpha_V_g1 : C.G1
  H_g1 : C.G1
  V_g2 : C.G2

/-- The default proof constructor (source lines 281-287): an invalid proof
whose four components are the respective group generators one(). -/
def default_proof (C : CurveType) : proof C :=
  { V_g1 := C.g1one, alpha_V_g1 := C.g1one, H_g1 := C.g1one, V_g2 := C.g2one }

/-- Well-formedness of a proof (source lines 308-311): all four components
pass the group well-formedness check. -/
def proof.is_well_formed (C : CurveType) (p : proof C) : Bool :=
  C.g1wf p.V_g1 && (C.g1wf p.alpha_V_g1 && (C.g1wf p.H_g1 && C.g2wf p.V_g2))

/-- The generator algorithm (source lines 341-455).  The random trapdoor
draws t, alpha, tilde are arguments (the source samples them from the
external randomness source); the window-size and window-table plumbing of
the source is performance-only and is absorbed into the batch_exp model;
the USCS-to-SSP instance reduction is invoked with the interpolation
arguments as explained at instance_map_with_evaluation. -/
def generator (C : CurveType) (cs : uscs_constraint_system C.F)
    (t alpha tilde : C.F) (Veval : Nat → C.F) (Zt : C.F) : keypair C :=
  let ssp_inst := instance_map_with_evaluation C cs t Veval Zt
  let Vt_table := ssp_inst.Vt ++ [ssp_inst.Zt]
  let Ht_table := ssp_inst.Ht
  let Xt_table := Vt_table.take (ssp_inst.num_inputs + 1)
  let Vt_table_minus_Xt_table := Vt_table.drop (ssp_inst.num_inputs + 1)
  let V_g1_query := batch_exp C.g1smul C.g1one Vt_table_minus_Xt_table
  let alpha_V_g1_query :=
    batch_exp_with_coeff C.g1smul C.fmul C.g1one alpha Vt_table_minus_Xt_table
  let H_g1_query := batch_exp C.g1smul C.g1one Ht_table
  let V_g2_query := batch_exp C.g2smul C.g2one Vt_table
  let tilde_g2 := C.g2smul tilde C.g2one
  let alpha_tilde_g2 := C.g2smul (C.fmul alpha tilde) C.g2one
  let Z_g2 := C.g2smul ssp_inst.Zt C.g2one
  let encoded_IC_base := C.g1smul (Xt_table.getD 0 C.fzero) C.g1one
  let encoded_IC_values := batch_exp C.g1smul C.g1one (Xt_table.drop 1)
  let encoded_IC_query : accumulation_vector C :=
    { first := encoded_IC_base, rest := encoded_IC_values }
  let vk : verification_key C :=
    { tilde_g2 := tilde_g2, alpha_tilde_g2 := alpha_tilde_g2, Z_g2 := Z_g2
      encoded_IC_query := encoded_IC_query }
  let pk : proving_key C :=
    { V_g1_query := V_g1_query, alpha_V_g1_query := alpha_V_g1_query
      H_g1_query := H_g1_query, V_g2_query := V_g2_query, cs := cs }
  { pk := pk, vk := vk }

/-- The prover algorithm (source lines 465-536).  The random blinding
scalar d is an argument (the source samples it), and the witness map is
invoked with the quotient-coefficient argument as explained at
witness_map.  The four accumulators start from the dummy-slot
contributions and then add the multi-exponentiation sums with exactly the
iterator ranges of the source. -/
def prover (C : CurveType) (pk : proving_key C) (x y : List C.F) (d : C.F)
    (hcoeffs : List C.F) : proof C :=
  let ssp_wit := witness_map C pk.cs x y d hcoeffs
  let V_g1 := C.g1smul ssp_wit.d
    (pk.V_g1_query.getD (pk.V_g1_query.length - 1) C.g1zero)
  let alpha_V_g1 := C.g1smul ssp_wit.d
    (pk.alpha_V_g1_query.getD (pk.alpha_V_g1_query.length - 1) C.g1zero)
  let H_g1 := C.g1zero
  let V_g2 := C.g2add (pk.V_g2_query.getD 0 C.g2zero)
    (C.g2smul ssp_wit.d (pk.V_g2_query.getD (pk.V_g2_query.length - 1) C.g2zero))
  let V_g1 := C.g1add V_g1
    (msm C.g1smul C.g1add C.g1zero
      ((ssp_wit.coefficients_for_Vs.drop ssp_wit.num_inputs).take
        (ssp_wit.num_variables - ssp_wit.num_inputs))
      (pk.V_g1_query.take (ssp_wit.num_variables - ssp_wit.num_inputs)))
  let alpha_V_g1 := C.g1add alpha_V_g1
    (msm C.g1smul C.g1add C.g1zero
      ((ssp_wit.coefficients_for_Vs.drop ssp_wit.num_inputs).take
        (ssp_wit.num_variables - ssp_wit.num_inputs))
      (pk.alpha_V_g1_query.take (ssp_wit.num_variables - ssp_wit.num_inputs)))
  let H_g1 := C.g1add H_g1
    (msm C.g1smul C.g1add C.g1zero
      (ssp_wit.coefficients_for_H.take (ssp_wit.degree + 1))
      (pk.H_g1_query.take (ssp_wit.degree + 1)))
  let V_g2 := C.g2add V_g2
    (msm C.g2smul C.g2add C.g2zero
      (ssp_wit.coefficients_for_Vs.take ssp_wit.num_variables)
      ((pk.V_g2_query.drop 1).take ssp_wit.num_variables))
  { V_g1 := V_g1, alpha_V_g1 := alpha_V_g1, H_g1 := H_g1, V_g2 := V_g2 }

/-- Conversion of a verification key into a processed verification key
(source lines 541-558).  Note the source stores the raw Miller-loop value
of the two generators in pairing_of_g1_and_g2 with no final
exponentiation. -/
def verifier_process_vk (C : CurveType) (vk : verification_key C) :
    processed_verification_key C :=
  { pp_G1_one_precomp := C.precompute_g1 C.g1one
    pp_G2_one_precomp := C.precompute_g2 C.g2one
    vk_tilde_g2_precomp := C.precompute_g2 vk.tilde_g2
    vk_alpha_tilde_g2_precomp := C.precompute_g2 vk.alpha_tilde_g2
    vk_Z_g2_precomp := C.precompute_g2 vk.Z_g2
    pairing_of_g1_and_g2 :=
      C.miller_loop (C.precompute_g1 C.g1one) (C.precompute_g2 C.g2one)
    encoded_IC_query := vk.encoded_IC_query }

/-- The accumulated input-consistency element: the first component of the
accumulation of the primary input against the encoded IC query at offset
0 (source lines 572-576). -/
def IC_acc (C : CurveType) (pvk : processed_verification_key C)
    (x : List C.F) : C.G1 :=
  (accumulation_vector.accumulate_chunk C pvk.encoded_IC_query x 0).first

/-- The value of pairing equation V of the online weak-IC verifier
(source lines 584-593). -/
def eqV (C : CurveType) (pvk : processed_verification_key C) (p : proof C)
    (acc : C.G1) : C.GT :=
  C.final_exponentiation
    (C.gtmul
      (C.miller_loop (C.precompute_g1 (C.g1add p.V_g1 acc)) pvk.pp_G2_one_precomp)
      (C.gtinv (C.miller_loop pvk.pp_G1_one_precomp (C.precompute_g2 p.V_g2))))

/-- The value of pairing equation SSP of the online weak-IC verifier
(source lines 599-606). -/
def eqSSP (C : CurveType) (pvk : processed_verification_key C) (p : proof C)
    (acc : C.G1) : C.GT :=
  C.final_exponentiation
    (C.gtmul
      (C.gtmul
        (C.gtinv (C.miller_loop (C.precompute_g1 (C.g1add p.V_g1 acc))
          (C.precompute_g2 p.V_g2)))
        (C.miller_loop (C.precompute_g1 p.H_g1) pvk.vk_Z_g2_precomp))
      pvk.pairing_of_g1_and_g2)

/-- The value of pairing equation alpha of the online weak-IC verifier
(source lines 612-621). -/
def eqAlpha (C : CurveType) (pvk : processed_verification_key C)
    (p : proof C) : C.GT :=
  C.final_exponentiation
    (C.gtmul
      (C.miller_loop (C.precompute_g1 p.V_g1) pvk.vk_alpha_tilde_g2_precomp)
      (C.gtinv (C.miller_loop (C.precompute_g1 p.alpha_V_g1) pvk.vk_tilde_g2_precomp)))

/-- The online weak-IC verifier (source lines 565-628): result starts
true; the well-formedness check and each of the three pairing-equation
checks against the GT identity sets result to false on failure; result is
returned at the end. -/
def online_verifier_weak_IC (C : CurveType)
    (pvk : processed_verification_key C) (x : List C.F) (p : proof C) : Bool :=
  let acc := IC_acc C pvk x
  let result := true
  let result := if proof.is_well_formed C p = false then false else result
  let result := if C.gtEq (eqV C pvk p acc) C.gtone = false then false else result
  let result := if C.gtEq (eqSSP C pvk p acc) C.gtone = false then false else result
  let result := if C.gtEq (eqAlpha C pvk p) C.gtone = false then false else result
  result

/-- The offline weak-IC verifier (source lines 635-642): process the key
and run the online weak-IC verifier. -/
def verifier_weak_IC (C : CurveType) (vk : verification_key C)
    (x : List C.F) (p : proof C) : Bool :=
  online_verifier_weak_IC C (verifier_process_vk C vk) x p

/-- The online strong-IC verifier (source lines 649-662): result is false
when the domain size of the encoded IC query differs from the primary
input length, and is the online weak-IC verdict otherwise. -/
def online_verifier_strong_IC (C : CurveType)
    (pvk : processed_verification_key C) (x : List C.F) (p : proof C) : Bool :=
  if accumulation_vector.domain_size C pvk.encoded_IC_query ≠ x.length then false
  else online_verifier_weak_IC C pvk x p

/-- The offline strong-IC verifier (source lines 669-676): process the key
and run the online strong-IC verifier. -/
def verifier_strong_IC (C : CurveType) (vk : verification_key C)
    (x : List C.F) (p : proof C) : Bool :=
  online_verifier_strong_IC C (verifier_process_vk C vk) x p

/-- A small concrete instantiation of the algebraic interface used to
evaluate the development on explicit inputs: scalars and both source
groups are the integers mod 5, the target carrier is the integers mod 11,
the pairing raises 4 (an element of multiplicative order 5 mod 11) to the
product of the two inputs, unitary inversion is the ninth power (the
inverse on the image of the pairing), and the final exponentiation is
squaring. -/
@[reducible] def TestCurve : CurveType where
  F := ZMod 5
  G1 := ZMod 5
  G2 := ZMod 5
  GT := ZMod 11
  G1Precomp := ZMod 5
  G2Precomp := ZMod 5
  fzero := 0
  fone := 1
  fadd := fun a b => a + b
  fmul := fun a b => a * b
  feq := fun a b => decide (a = b)
  g1zero := 0
  g1one := 1
  g1add := fun a b => a + b
  g1smul := fun s g => s * g
  g1wf := fun _ => true
  g2zero := 0
  g2one := 1
  g2add := fun a b => a + b
  g2smul := fun s g => s * g
  g2wf := fun _ => true
  gtone := 1
  gtmul := fun a b => a * b
  gtinv := fun a => a ^ 9
  gtEq := fun a b => decide (a = b)
  precompute_g1 := fun g => g
  precompute_g2 := fun g => g
  miller_loop := fun a b => (4 : ZMod 11) ^ (a.val * b.val)
  final_exponentiation := fun a => a * a

instance : DecidableEq TestCurve.F := inferInstanceAs (DecidableEq (ZMod 5))

instance : DecidableEq TestCurve.G1 := inferInstanceAs (DecidableEq (ZMod 5))

instance : DecidableEq TestCurve.G2 := inferInstanceAs (DecidableEq (ZMod 5))

instance : DecidableEq TestCurve.GT := inferInstanceAs (DecidableEq (ZMod 11))

instance : Fintype TestCurve.F := inferInstanceAs (Fintype (ZMod 5))

instance : Fintype TestCurve.G1 := inferInstanceAs (Fintype (ZMod 5))

instance : Fintype TestCurve.G2 := inferInstanceAs (Fintype (ZMod 5))

instance : Fintype TestCurve.GT := inferInstanceAs (Fintype (ZMod 11))

/-- A concrete constraint system over the test curve: one public input,
no auxiliary variables, and the single constraint stating that the public
input squares to 1. -/
@[reducible] def test_cs : uscs_constraint_system TestCurve.F :=
  { num_inputs := 1, num_auxiliary := 0, constraints := [{ terms := [(1, 1)] }] }

/-- A concrete verification key over the test curve with an empty encoded
IC domain. -/
@[reducible] def test_vk : verification_key TestCurve :=
  { tilde_g2 := 1, alpha_tilde_g2 := 1, Z_g2 := 1
    encoded_IC_query := { first := 1, rest := [] } }

/-- A concrete verification key over the test curve with an encoded IC
domain of two positions. -/
@[reducible] def test_vk2 : verification_key TestCurve :=
  { tilde_g2 := 1, alpha_tilde_g2 := 2, Z_g2 := 3
    encoded_IC_query := { first := 1, rest := [1, 2] } }

/-- The processed form of test_vk2. -/
@[reducible] def test_pvk2 : processed_verification_key TestCurve :=
  verifier_process_vk TestCurve test_vk2

/-- A concrete proving key over the test curve (shapes matching test_cs:
one variable, one input, so one slot in the G1 queries beyond the inputs
and three slots in the G2 query). -/
@[reducible] def test_pk : proving_key TestCurve :=
  { V_g1_query := [2], alpha_V_g1_query := [3], H_g1_query := [1, 2]
    V_g2_query := [1, 2, 3], cs := test_cs }

/-- Helper: a multi-scalar multiplication whose scalars are all zero
collapses to the group zero, given that zero scalars annihilate and that
zero is a right identity. -/
theorem msm_replicate_zero (C : CurveType)
    (hz : ∀ g, C.g1smul C.fzero g = C.g1zero)
    (hid : ∀ g, C.g1add g C.g1zero = g) :
    ∀ (k : Nat) (l : List C.G1),
      msm C.g1smul C.g1add C.g1zero (List.replicate k C.fzero) l = C.g1zero := by
  intro k
  induction k with
  | zero => intro l; rfl
  | succ n ih =>
    intro l
    cases l with
    | nil => rfl
    | cons b l' =>
      simp only [List.replicate_succ, msm, List.zipWith_cons_cons, List.foldr_cons]
      have h2 := ih l'
      simp only [msm] at h2
      rw [h2, hz, hid]

/-- Helper: appending zero scalars to the scalar list of a multi-scalar
multiplication does not change its value, when the point list is long
enough to meet all the scalars. -/
theorem msm_append_zeros (C : CurveType)
    (hz : ∀ g, C.g1smul C.fzero g = C.g1zero)
    (hid : ∀ g, C.g1add g C.g1zero = g) :
    ∀ (x : List C.F) (k : Nat) (l : List C.G1), x.length + k ≤ l.length →
      msm C.g1smul C.g1add C.g1zero (x ++ List.replicate k C.fzero) l =
        msm C.g1smul C.g1add C.g1zero x l := by
  intro x
  induction x with
  | nil =>
    intro k l _
    simp only [List.nil_append]
    exact msm_replicate_zero C hz hid k l
  | cons a xs ih =>
    intro k l h
    cases l with
    | nil => simp at h
    | cons b l' =>
      simp only [List.cons_append, msm, List.zipWith_cons_cons, List.foldr_cons]
      have h' : xs.length + k ≤ l'.length := by
        simp only [List.length_cons] at h; omega
      have h2 := ih k l' h'
      simp only [msm] at h2
      rw [h2]

/-- C1: with the primary input no longer than the encoded IC domain, the
online weak-IC verifier accepts exactly when the proof is well formed and
each of the three pairing equations (equation V, equation SSP, equation
alpha) evaluates to the GT identity; the verdict is the conjunction of
all four checks, so a failed equation never masks the evaluation of the
later ones. -/
theorem C1_online_weak_IC_accepts_iff (C : CurveType)
    (pvk : processed_verification_key C) (x : List C.F) (p : proof C)
    (h : x.length ≤ accumulation_vector.domain_size C pvk.encoded_IC_query) :
    online_verifier_weak_IC C pvk x p =
      (proof.is_well_formed C p &&
        (C.gtEq (eqV C pvk p (IC_acc C pvk x)) C.gtone &&
          (C.gtEq (eqSSP C pvk p (IC_acc C pvk x)) C.gtone &&
            C.gtEq (eqAlpha C pvk p) C.gtone))) := by
  simp only [online_verifier_weak_IC]
  cases h1 : proof.is_well_formed C p <;>
    cases h2 : C.gtEq (eqV C pvk p (IC_acc C pvk x)) C.gtone <;>
      cases h3 : C.gtEq (eqSSP C pvk p (IC_acc C pvk x)) C.gtone <;>
        cases h4 : C.gtEq (eqAlpha C pvk p) C.gtone <;>
          simp [h1, h2, h3, h4]

/-- C1 witness: the theorem applied to the test curve, a processed key
with a two-position IC domain, a one-element primary input and the
default proof. -/
theorem C1_online_weak_IC_accepts_iff_witness :
    ([(1 : ZMod 5)] : List TestCurve.F).length ≤
        accumulation_vector.domain_size TestCurve test_pvk2.encoded_IC_query ∧
      online_verifier_weak_IC TestCurve test_pvk2 [(1 : ZMod 5)]
          (default_proof TestCurve) =
        (proof.is_well_formed TestCurve (default_proof TestCurve) &&
          (TestCurve.gtEq
              (eqV TestCurve test_pvk2 (default_proof TestCurve)
                (IC_acc TestCurve test_pvk2 [(1 : ZMod 5)])) TestCurve.gtone &&
            (TestCurve.gtEq
                (eqSSP TestCurve test_pvk2 (default_proof TestCurve)
                  (IC_acc TestCurve test_pvk2 [(1 : ZMod 5)])) TestCurve.gtone &&
              TestCurve.gtEq (eqAlpha TestCurve test_pvk2 (default_proof TestCurve))
                TestCurve.gtone))) :=
  ⟨by decide,
    C1_online_weak_IC_accepts_iff TestCurve test_pvk2 [(1 : ZMod 5)]
      (default_proof TestCurve) (by decide)⟩

/-- C3 counterexample: on the concrete test curve the pairing_of_g1_and_g2
field of a processed verification key is not the final exponentiation of
the Miller loop of the two generators, refuting the claim as stated. -/
theorem C3_pairing_field_cex :
    ¬ ((verifier_process_vk TestCurve test_vk).pairing_of_g1_and_g2 =
        TestCurve.final_exponentiation
          (TestCurve.miller_loop (TestCurve.precompute_g1 TestCurve.g1one)
            (TestCurve.precompute_g2 TestCurve.g2one))) := by
  decide

/-- C3 amended: verifier_process_vk stores in pairing_of_g1_and_g2 the raw
Miller-loop value of the precomputed generators, with no final
exponentiation (the final exponentiation is applied later inside each
verification equation, where this value enters pre-exponentiation). -/
theorem C3_pairing_field_is_miller_loop (C : CurveType)
    (vk : verification_key C) :
    (verifier_process_vk C vk).pairing_of_g1_and_g2 =
      C.miller_loop (C.precompute_g1 C.g1one) (C.precompute_g2 C.g2one) :=
  rfl

/-- C4: the online strong-IC verifier returns false whenever the encoded
IC domain size differs from the primary input length, and otherwise
returns exactly the online weak-IC verdict. -/
theorem C4_online_strong_IC_length_gate (C : CurveType)
    (pvk : processed_verification_key C) (x : List C.F) (p : proof C) :
    online_verifier_strong_IC C pvk x p =
      if accumulation_vector.domain_size C pvk.encoded_IC_query = x.length
      then online_verifier_weak_IC C pvk x p else false := by
  simp only [online_verifier_strong_IC]
  by_cases hd : accumulation_vector.domain_size C pvk.encoded_IC_query = x.length
  · simp [hd]
  · simp [hd]

/-- C6: both offline verifiers equal the corresponding online verifier
applied to the processed verification key. -/
theorem C6_offline_online_equivalence (C : CurveType)
    (vk : verification_key C) (x : List C.F) (p : proof C) :
    verifier_weak_IC C vk x p =
        online_verifier_weak_IC C (verifier_process_vk C vk) x p ∧
      verifier_strong_IC C vk x p =
        online_verifier_strong_IC C (verifier_process_vk C vk) x p :=
  ⟨rfl, rfl⟩

/-- C8 counterexample: for the concrete one-variable constraint system the
Vt sequence returned by the instance map has length num_variables + 1,
not num_variables + 2, refuting the claim as stated. -/
theorem C8_Vt_length_cex :
    ¬ ((instance_map_with_evaluation TestCurve test_cs 1 (fun _ => 1) 1).Vt.length =
        uscs_constraint_system.num_variables test_cs + 2) := by
  decide

/-- C8 amended: the Vt sequence returned by instance_map_with_evaluation
has length num_variables + 1 (the evaluations V_i(t) for i in
[0, num_variables]), so the generator's Vt_table obtained by appending Zt
has length num_variables + 2. -/
theorem C8_Vt_length (C : CurveType) (cs : uscs_constraint_system C.F)
    (t : C.F) (Veval : Nat → C.F) (Zt : C.F) :
    (instance_map_with_evaluation C cs t Veval Zt).Vt.length =
        uscs_constraint_system.num_variables cs + 1 ∧
      ((instance_map_with_evaluation C cs t Veval Zt).Vt ++
          [(instance_map_with_evaluation C cs t Veval Zt).Zt]).length =
        uscs_constraint_system.num_variables cs + 2 := by
  constructor
  · simp [instance_map_with_evaluation]
  · simp [instance_map_with_evaluation]

/-- C10: the generator leaves its constraint-system argument untouched and
embeds a structurally equal copy of it in the returned proving key; in
this pure embedding the absence of mutation is by construction, and the
copy equality is definitional. -/
theorem C10_generator_preserves_cs (C : CurveType)
    (cs : uscs_constraint_system C.F) (t alpha tilde : C.F)
    (Veval : Nat → C.F) (Zt : C.F) :
    (generator C cs t alpha tilde Veval Zt).pk.cs = cs :=
  rfl

/-- C2: for inputs satisfying the proving key's constraint system, with
blinding scalar d and witness wit given by the witness map, the prover
returns exactly the proof whose V_g1 is d times the last V_g1_query entry
plus the multi-scalar multiplication of the first num_variables minus
num_inputs query entries against the Vs coefficients from num_inputs to
num_variables, whose alpha_V_g1 is the same sum over alpha_V_g1_query,
whose H_g1 is the multi-scalar multiplication of the first degree + 1
H_g1_query entries against the H coefficients, and whose V_g2 is
V_g2_query[0] plus d times the last V_g2_query entry plus the
multi-scalar multiplication of V_g2_query positions 1 to num_variables
against the Vs coefficients from 0 to num_variables. -/
theorem C2_prover_components (C : CurveType) (pk : proving_key C)
    (x y : List C.F) (d : C.F) (hcoeffs : List C.F)
    (hsat : is_satisfied C pk.cs x y = true)
    (hzadd : ∀ g, C.g1add C.g1zero g = g) :
    prover C pk x y d hcoeffs =
      { V_g1 := C.g1add
          (C.g1smul (witness_map C pk.cs x y d hcoeffs).d
            (pk.V_g1_query.getD (pk.V_g1_query.length - 1) C.g1zero))
          (msm C.g1smul C.g1add C.g1zero
            (((witness_map C pk.cs x y d hcoeffs).coefficients_for_Vs.drop
                (witness_map C pk.cs x y d hcoeffs).num_inputs).take
              ((witness_map C pk.cs x y d hcoeffs).num_variables -
                (witness_map C pk.cs x y d hcoeffs).num_inputs))
            (pk.V_g1_query.take
              ((witness_map C pk.cs x y d hcoeffs).num_variables -
                (witness_map C pk.cs x y d hcoeffs).num_inputs)))
        alpha_V_g1 := C.g1add
          (C.g1smul (witness_map C pk.cs x y d hcoeffs).d
            (pk.alpha_V_g1_query.getD (pk.alpha_V_g1_query.length - 1) C.g1zero))
          (msm C.g1smul C.g1add C.g1zero
            (((witness_map C pk.cs x y d hcoeffs).coefficients_for_Vs.drop
                (witness_map C pk.cs x y d hcoeffs).num_inputs).take
              ((witness_map C pk.cs x y d hcoeffs).num_variables -
                (witness_map C pk.cs x y d hcoeffs).num_inputs))
            (pk.alpha_V_g1_query.take
              ((witness_map C pk.cs x y d hcoeffs).num_variables -
                (witness_map C pk.cs x y d hcoeffs).num_inputs)))
        H_g1 := msm C.g1smul C.g1add C.g1zero
          ((witness_map C pk.cs x y d hcoeffs).coefficients_for_H.take
            ((witness_map C pk.cs x y d hcoeffs).degree + 1))
          (pk.H_g1_query.take ((witness_map C pk.cs x y d hcoeffs).degree + 1))
        V_g2 := C.g2add
          (C.g2add (pk.V_g2_query.getD 0 C.g2zero)
            (C.g2smul (witness_map C pk.cs x y d hcoeffs).d
              (pk.V_g2_query.getD (pk.V_g2_query.length - 1) C.g2zero)))
          (msm C.g2smul C.g2add C.g2zero
            ((witness_map C pk.cs x y d hcoeffs).coefficients_for_Vs.take
              (witness_map C pk.cs x y d hcoeffs).num_variables)
            ((pk.V_g2_query.drop 1).take
              (witness_map C pk.cs x y d hcoeffs).num_variables)) } := by
  simp only [prover]
  rw [hzadd]

/-- C2 witness: the theorem applied to the test curve, the concrete
proving key test_pk, the satisfying input x = [1] with empty auxiliary
input, blinding scalar 2 and quotient coefficients [1, 1]. -/
theorem C2_prover_components_witness :
    (is_satisfied TestCurve test_pk.cs [(1 : ZMod 5)] [] = true ∧
      ∀ g : TestCurve.G1, TestCurve.g1add TestCurve.g1zero g = g) ∧
    prover TestCurve test_pk [(1 : ZMod 5)] [] 2 [1, 1] =
      { V_g1 := TestCurve.g1add
          (TestCurve.g1smul (witness_map TestCurve test_pk.cs [(1 : ZMod 5)] [] 2 [1, 1]).d
            (test_pk.V_g1_query.getD (test_pk.V_g1_query.length - 1) TestCurve.g1zero))
          (msm TestCurve.g1smul TestCurve.g1add TestCurve.g1zero
            (((witness_map TestCurve test_pk.cs [(1 : ZMod 5)] [] 2 [1, 1]).coefficients_for_Vs.drop
                (witness_map TestCurve test_pk.cs [(1 : ZMod 5)] [] 2 [1, 1]).num_inputs).take
              ((witness_map TestCurve test_pk.cs [(1 : ZMod 5)] [] 2 [1, 1]).num_variables -
                (witness_map TestCurve test_pk.cs [(1 : ZMod 5)] [] 2 [1, 1]).num_inputs))
            (test_pk.V_g1_query.take
              ((witness_map TestCurve test_pk.cs [(1 : ZMod 5)] [] 2 [1, 1]).num_variables -
                (witness_map TestCurve test_pk.cs [(1 : ZMod 5)] [] 2 [1, 1]).num_inputs)))
        alpha_V_g1 := TestCurve.g1add
          (TestCurve.g1smul (witness_map TestCurve test_pk.cs [(1 : ZMod 5)] [] 2 [1, 1]).d
            (test_pk.alpha_V_g1_query.getD (test_pk.alpha_V_g1_query.length - 1) TestCurve.g1zero))
          (msm TestCurve.g1smul TestCurve.g1add TestCurve.g1zero
            (((witness_map TestCurve test_pk.cs [(1 : ZMod 5)] [] 2 [1, 1]).coefficients_for_Vs.drop
                (witness_map TestCurve test_pk.cs [(1 : ZMod 5)] [] 2 [1, 1]).num_inputs).take
              ((witness_map TestCurve test_pk.cs [(1 : ZMod 5)] [] 2 [1, 1]).num_variables -
                (witness_map TestCurve test_pk.cs [(1 : ZMod 5)] [] 2 [1, 1]).num_inputs))
            (test_pk.alpha_V_g1_query.take
              ((witness_map TestCurve test_pk.cs [(1 : ZMod 5)] [] 2 [1, 1]).num_variables -
                (witness_map TestCurve test_pk.cs [(1 : ZMod 5)] [] 2 [1, 1]).num_inputs)))
        H_g1 := msm TestCurve.g1smul TestCurve.g1add TestCurve.g1zero
          ((witness_map TestCurve test_pk.cs [(1 : ZMod 5)] [] 2 [1, 1]).coefficients_for_H.take
            ((witness_map TestCurve test_pk.cs [(1 : ZMod 5)] [] 2 [1, 1]).degree + 1))
          (test_pk.H_g1_query.take
            ((witness_map TestCurve test_pk.cs [(1 : ZMod 5)] [] 2 [1, 1]).degree + 1))
        V_g2 := TestCurve.g2add
          (TestCurve.g2add (test_pk.V_g2_query.getD 0 TestCurve.g2zero)
            (TestCurve.g2smul (witness_map TestCurve test_pk.cs [(1 : ZMod 5)] [] 2 [1, 1]).d
              (test_pk.V_g2_query.getD (test_pk.V_g2_query.length - 1) TestCurve.g2zero)))
          (msm TestCurve.g2smul TestCurve.g2add TestCurve.g2zero
            ((witness_map TestCurve test_pk.cs [(1 : ZMod 5)] [] 2 [1, 1]).coefficients_for_Vs.take
              (witness_map TestCurve test_pk.cs [(1 : ZMod 5)] [] 2 [1, 1]).num_variables)
            ((test_pk.V_g2_query.drop 1).take
              (witness_map TestCurve test_pk.cs [(1 : ZMod 5)] [] 2 [1, 1]).num_variables)) } :=
  ⟨⟨by decide, by decide⟩,
    C2_prover_components TestCurve test_pk [(1 : ZMod 5)] [] 2 [1, 1]
      (by decide) (by decide)⟩

/-- C5: appending zero scalars to the primary input, while staying within
the encoded IC domain size, does not change the weak-IC verdict: the
padded positions contribute zero to the accumulated element, given that
zero scalars annihilate and the group zero is a right identity. -/
theorem C5_weak_IC_zero_padding (C : CurveType) (vk : verification_key C)
    (x : List C.F) (p : proof C) (k : Nat)
    (hz : ∀ g, C.g1smul C.fzero g = C.g1zero)
    (hid : ∀ g, C.g1add g C.g1zero = g)
    (h : x.length + k ≤ accumulation_vector.domain_size C vk.encoded_IC_query) :
    verifier_weak_IC C vk x p =
      verifier_weak_IC C vk (x ++ List.replicate k C.fzero) p := by
  have hlen : x.length + k ≤ vk.encoded_IC_query.rest.length := h
  have hacc : IC_acc C (verifier_process_vk C vk) (x ++ List.replicate k C.fzero) =
      IC_acc C (verifier_process_vk C vk) x := by
    simp only [IC_acc, accumulation_vector.accumulate_chunk, verifier_process_vk,
      List.drop_zero]
    rw [msm_append_zeros C hz hid x k vk.encoded_IC_query.rest hlen]
  simp only [verifier_weak_IC, online_verifier_weak_IC]
  rw [hacc]

/-- C5 witness: the theorem applied to the test curve, the verification
key test_vk2 with a two-position IC domain, primary input [1], one zero
of padding and the default proof. -/
theorem C5_weak_IC_zero_padding_witness :
    ((∀ g : TestCurve.G1, TestCurve.g1smul TestCurve.fzero g = TestCurve.g1zero) ∧
      (∀ g : TestCurve.G1, TestCurve.g1add g TestCurve.g1zero = g) ∧
      ([(1 : ZMod 5)] : List TestCurve.F).length + 1 ≤
        accumulation_vector.domain_size TestCurve test_vk2.encoded_IC_query) ∧
    verifier_weak_IC TestCurve test_vk2 [(1 : ZMod 5)] (default_proof TestCurve) =
      verifier_weak_IC TestCurve test_vk2
        ([(1 : ZMod 5)] ++ List.replicate 1 TestCurve.fzero) (default_proof TestCurve) :=
  ⟨⟨by decide, by decide, by decide⟩,
    C5_weak_IC_zero_padding TestCurve test_vk2 [(1 : ZMod 5)]
      (default_proof TestCurve) 1 (by decide) (by decide) (by decide)⟩

/-- C7: the keypair returned by the generator satisfies the shape
invariants: the V_g1 and alpha_V_g1 queries have num_variables minus
num_inputs plus 1 entries, the H_g1 query has degree + 1 entries, the
V_g2 query has num_variables + 2 entries, and the encoded IC query of the
verification key has domain size num_inputs (in this data model every
constraint system is well formed, num_inputs never exceeding
num_variables). -/
theorem C7_generator_key_shapes (C : CurveType)
    (cs : uscs_constraint_system C.F) (t alpha tilde : C.F)
    (Veval : Nat → C.F) (Zt : C.F) :
    (generator C cs t alpha tilde Veval Zt).pk.V_g1_query.length =
        uscs_constraint_system.num_variables cs - cs.num_inputs + 1 ∧
      (generator C cs t alpha tilde Veval Zt).pk.alpha_V_g1_query.length =
        uscs_constraint_system.num_variables cs - cs.num_inputs + 1 ∧
      (generator C cs t alpha tilde Veval Zt).pk.H_g1_query.length =
        ssp_degree cs + 1 ∧
      (generator C cs t alpha tilde Veval Zt).pk.V_g2_query.length =
        uscs_constraint_system.num_variables cs + 2 ∧
      accumulation_vector.domain_size C
          (generator C cs t alpha tilde Veval Zt).vk.encoded_IC_query =
        cs.num_inputs := by
  refine ⟨?_, ?_, ?_, ?_, ?_⟩ <;>
    simp [generator, instance_map_with_evaluation, batch_exp, batch_exp_with_coeff,
      accumulation_vector.domain_size, uscs_constraint_system.num_variables] <;>
    omega

/-- Helper: the base element of the encoded IC query produced by the
generator is the evaluation of the constant polynomial slot times the G1
generator. -/
theorem generator_IC_first (C : CurveType) (cs : uscs_constraint_system C.F)
    (t alpha tilde : C.F) (Veval : Nat → C.F) (Zt : C.F) :
    (generator C cs t alpha tilde Veval Zt).vk.encoded_IC_query.first =
      C.g1smul (Veval 0) C.g1one := by
  simp [generator, instance_map_with_evaluation, List.range_succ_eq_map,
    List.take_succ_cons, List.getD_cons_zero]

/-- Helper: the online weak-IC verifier returns false as soon as the
equation V check fails, whatever the other checks yield. -/
theorem online_weak_IC_false_of_eqV_fail (C : CurveType)
    (pvk : processed_verification_key C) (x : List C.F) (p : proof C)
    (hb : C.gtEq (eqV C pvk p (IC_acc C pvk x)) C.gtone = false) :
    online_verifier_weak_IC C pvk x p = false := by
  simp only [online_verifier_weak_IC]
  rw [hb]
  simp

/-- C9: a default-constructed proof has all four components equal to the
respective group generator, its well-formedness check returns true
(granted that the generators pass the group membership checks), and for
every honestly generated verification key both the weak-IC and the
strong-IC verifier reject it, because pairing equation V fails on it: the
hypotheses state the documented behaviour of the external pairing
(equation V of the generators vanishes exactly on the zero offset, the
boolean GT equality decides equality, zero is a right identity, nonzero
multiples of the generator are nonzero) and the generator invariant that
the constant slot evaluation is nonzero; the verifiers are evaluated at
the empty primary input. -/
theorem C9_default_proof_rejected (C : CurveType)
    (cs : uscs_constraint_system C.F) (t alpha tilde : C.F)
    (Veval : Nat → C.F) (Zt : C.F)
    (hwf1 : C.g1wf C.g1one = true) (hwf2 : C.g2wf C.g2one = true)
    (hid : ∀ g, C.g1add g C.g1zero = g)
    (hgtEq : ∀ a b, C.gtEq a b = true ↔ a = b)
    (hVeq : ∀ P : C.G1,
      C.final_exponentiation
          (C.gtmul
            (C.miller_loop (C.precompute_g1 (C.g1add C.g1one P))
              (C.precompute_g2 C.g2one))
            (C.gtinv (C.miller_loop (C.precompute_g1 C.g1one)
              (C.precompute_g2 C.g2one)))) = C.gtone ↔ P = C.g1zero)
    (hsmul : ∀ s, s ≠ C.fzero → C.g1smul s C.g1one ≠ C.g1zero)
    (hV0 : Veval 0 ≠ C.fzero) :
    default_proof C =
        { V_g1 := C.g1one, alpha_V_g1 := C.g1one, H_g1 := C.g1one, V_g2 := C.g2one } ∧
      proof.is_well_formed C (default_proof C) = true ∧
      verifier_weak_IC C (generator C cs t alpha tilde Veval Zt).vk []
          (default_proof C) = false ∧
      verifier_strong_IC C (generator C cs t alpha tilde Veval Zt).vk []
          (default_proof C) = false := by
  have hacc : IC_acc C (verifier_process_vk C (generator C cs t alpha tilde Veval Zt).vk)
      ([] : List C.F) = C.g1smul (Veval 0) C.g1one := by
    simp only [IC_acc, accumulation_vector.accumulate_chunk, verifier_process_vk,
      List.drop_zero]
    rw [show msm C.g1smul C.g1add C.g1zero ([] : List C.F)
        (generator C cs t alpha tilde Veval Zt).vk.encoded_IC_query.rest = C.g1zero from rfl]
    rw [hid, generator_IC_first]
  have hne : C.g1smul (Veval 0) C.g1one ≠ C.g1zero := hsmul _ hV0
  have heqV : eqV C (verifier_process_vk C (generator C cs t alpha tilde Veval Zt).vk)
      (default_proof C)
      (IC_acc C (verifier_process_vk C (generator C cs t alpha tilde Veval Zt).vk)
        ([] : List C.F)) ≠ C.gtone := by
    rw [hacc]
    intro hEq
    exact hne ((hVeq _).mp hEq)
  have hbool : C.gtEq
      (eqV C (verifier_process_vk C (generator C cs t alpha tilde Veval Zt).vk)
        (default_proof C)
        (IC_acc C (verifier_process_vk C (generator C cs t alpha tilde Veval Zt).vk)
          ([] : List C.F))) C.gtone = false := by
    cases hb : C.gtEq
        (eqV C (verifier_process_vk C (generator C cs t alpha tilde Veval Zt).vk)
          (default_proof C)
          (IC_acc C (verifier_process_vk C (generator C cs t alpha tilde Veval Zt).vk)
            ([] : List C.F))) C.gtone with
    | false => rfl
    | true => exact absurd ((hgtEq _ _).mp hb) heqV
  have hweak : online_verifier_weak_IC C
      (verifier_process_vk C (generator C cs t alpha tilde Veval Zt).vk) []
      (default_proof C) = false :=
    online_weak_IC_false_of_eqV_fail C _ _ _ hbool
  have hstrong : online_verifier_strong_IC C
      (verifier_process_vk C (generator C cs t alpha tilde Veval Zt).vk) []
      (default_proof C) = false := by
    simp only [online_verifier_strong_IC]
    by_cases hd : accumulation_vector.domain_size C
        (verifier_process_vk C (generator C cs t alpha tilde Veval Zt).vk).encoded_IC_query ≠
        ([] : List C.F).length
    · rw [if_pos hd]
    · rw [if_neg hd]
      exact hweak
  exact ⟨rfl, by simp [proof.is_well_formed, default_proof, hwf1, hwf2], hweak, hstrong⟩

/-- C9 witness: the theorem applied to the test curve, the concrete
constraint system test_cs, trapdoor draws 3, 2, 2, the constant
evaluation oracle returning 1 and vanishing value 2. -/
theorem C9_default_proof_rejected_witness :
    (TestCurve.g1wf TestCurve.g1one = true ∧
      TestCurve.g2wf TestCurve.g2one = true ∧
      (∀ g : TestCurve.G1, TestCurve.g1add g TestCurve.g1zero = g) ∧
      (∀ a b : TestCurve.GT, TestCurve.gtEq a b = true ↔ a = b) ∧
      (∀ P : TestCurve.G1,
        TestCurve.final_exponentiation
            (TestCurve.gtmul
              (TestCurve.miller_loop
                (TestCurve.precompute_g1 (TestCurve.g1add TestCurve.g1one P))
                (TestCurve.precompute_g2 TestCurve.g2one))
              (TestCurve.gtinv (TestCurve.miller_loop
                (TestCurve.precompute_g1 TestCurve.g1one)
                (TestCurve.precompute_g2 TestCurve.g2one)))) = TestCurve.gtone ↔
          P = TestCurve.g1zero) ∧
      (∀ s : TestCurve.F, s ≠ TestCurve.fzero →
        TestCurve.g1smul s TestCurve.g1one ≠ TestCurve.g1zero) ∧
      (fun _ : Nat => (1 : ZMod 5)) 0 ≠ TestCurve.fzero) ∧
    (default_proof TestCurve =
        { V_g1 := TestCurve.g1one, alpha_V_g1 := TestCurve.g1one
          H_g1 := TestCurve.g1one, V_g2 := TestCurve.g2one } ∧
      proof.is_well_formed TestCurve (default_proof TestCurve) = true ∧
      verifier_weak_IC TestCurve
          (generator TestCurve test_cs 3 2 2 (fun _ => (1 : ZMod 5)) 2).vk []
          (default_proof TestCurve) = false ∧
      verifier_strong_IC TestCurve
          (generator TestCurve test_cs 3 2 2 (fun _ => (1 : ZMod 5)) 2).vk []
          (default_proof TestCurve) = false) :=
  ⟨⟨by decide, by decide, by decide, by decide, by decide, by decide, by decide⟩,
    C9_default_proof_rejected TestCurve test_cs 3 2 2 (fun _ => (1 : ZMod 5)) 2
      (by decide) (by decide) (by decide) (by decide) (by decide) (by decide) (by decide)⟩
